import Mathlib

/-!
Shallow embedding of the KickZone booking logic (kickzone_app/models.py, views.py,
enhanced_views.py, serializers.py, signals.py).

Conventions of the embedding:
* times of day are minutes since midnight (`Nat`); the Python code parses `%H:%M`
  strings, so minute granularity is exact;
* calendar dates are day numbers (`Int`), timestamps for promotion windows are `Int`;
* money and hour amounts are rationals (`ℚ`), idealising Python float/Decimal
  arithmetic; Python `round(x, 2)` is round-half-to-even, `int(x)` truncates toward 0;
* database rows are records in lists, a fetch by id is an `Option` parameter
  (the result of `objects.get`), and fallible request handlers return `Except`;
* booking statuses are the four string choices of `Booking.STATUS_CHOICES`.
-/

deriving instance DecidableEq for Except

namespace KickZone

/-- The four `Booking.STATUS_CHOICES` strings (models.py:279). -/
inductive BStatus
  | pending
  | confirmed
  | cancelled
  | completed
deriving DecidableEq

/-- The `user_type` choices relevant to the booking endpoints. -/
inductive UserType
  | player
  | owner
  | admin
deriving DecidableEq

/-- One row of the `Booking` table (models.py:278-293). `id` is the primary key. -/
structure Booking where
  id : Nat
  pitchId : Nat
  playerId : Nat
  date : Int
  startTime : Nat
  endTime : Nat
  status : BStatus
  totalPrice : ℚ
deriving DecidableEq

/-- The fields of a `Pitch` row used by the booking logic (models.py:151-189). -/
structure Pitch where
  id : Nat
  pricePerHour : ℚ
  ownerId : Nat
deriving DecidableEq

/-- One `PitchAvailability` row for a given pitch and weekday (models.py:246-251). -/
structure Availability where
  openingTime : Nat
  closingTime : Nat
  isAvailable : Bool
deriving DecidableEq

/-- The fields of a `Promotion` row used by the validity check (models.py:790-807). -/
structure Promotion where
  discountPercentage : Int
  maxUses : Option Int
  currentUses : Int
  validFrom : Int
  validUntil : Int
deriving DecidableEq

/-- Duration in hours between two times of day, mirroring
`(end_dt - start_dt).total_seconds() / 3600` with both datetimes on the same date. -/
def durationHours (s e : Nat) : ℚ := ((e : ℚ) - (s : ℚ)) / 60

/-- Round half to even to an integer, mirroring Python's builtin `round`. -/
def roundHalfEven (x : ℚ) : Int :=
  let f := Int.floor x
  let r := x - (f : ℚ)
  if r < 1/2 then f
  else if 1/2 < r then f + 1
  else if f % 2 = 0 then f else f + 1

/-- Python `round(x, 2)`. -/
def round2 (x : ℚ) : ℚ := (roundHalfEven (x * 100) : ℚ) / 100

/-- Python `int(x)`: truncation toward zero. -/
def truncQ (q : ℚ) : Int := if q < 0 then Int.ceil q else Int.floor q

/-- Mirrors `Promotion.is_valid` (models.py:861-866): `valid_from <= now <= valid_until`
(note: closed at both ends) and, inside that window, `max_uses is None or
current_uses < max_uses`. -/
def Promotion.is_valid (p : Promotion) (now : Int) : Bool :=
  if p.validFrom ≤ now ∧ now ≤ p.validUntil then
    match p.maxUses with
    | none => true
    | some m => decide (p.currentUses < m)
  else false

/-- Modelled from the spec's words only (for comparison with `Promotion.is_valid`):
valid exactly when the current time falls in the half-open window
[valid_from, valid_until) and the usage counter has not reached the maximum. -/
def Promotion.specValid (p : Promotion) (now : Int) : Bool :=
  if p.validFrom ≤ now ∧ now < p.validUntil then
    match p.maxUses with
    | none => true
    | some m => decide (p.currentUses < m)
  else false

/-- Mirrors `Booking.save` (models.py:360-370): whenever pitch, start and end are set
(always the case in this embedding, where those fields are total), the method
recomputes `total_price = float(pitch.price_per_hour) * duration_hours` before the
row is written, regardless of the value currently stored in the field. -/
def Booking.save (pitch : Pitch) (b : Booking) : Booking :=
  { b with totalPrice := pitch.pricePerHour * durationHours b.startTime b.endTime }

/-- The status filter `status__in=['confirmed', 'pending']` used by every
conflict query (models.py:343, views.py:479, serializers.py:60). -/
def Booking.isActive (b : Booking) : Bool :=
  decide (b.status = BStatus.confirmed ∨ b.status = BStatus.pending)

/-- One interval-overlap test, exactly as written in `Booking.clean` (models.py:347)
and as the filter pair `start_time__lt=end` / `end_time__gt=start` (views.py:480-481):
`start < other.end and end > other.start`. -/
def overlaps (s e : Nat) (b : Booking) : Bool :=
  decide (s < b.endTime) && decide (e > b.startTime)

/-- The `.exclude(pk=exclude_pk)` step of the conflict queries. -/
def notExcluded (excludeId : Option Nat) (b : Booking) : Bool :=
  match excludeId with
  | none => true
  | some i => decide (b.id ≠ i)

/-- The conflict query shared by `Booking.clean` (models.py:340-350), the view-level
filter (views.py:476-490, enhanced_views.py:803-814) and
`validate_booking_conflicts` (serializers.py:57-74): some booking of the same pitch
and date, with status pending or confirmed, not excluded, overlaps [s, e). -/
def hasConflict (pitchId : Nat) (date : Int) (s e : Nat) (excludeId : Option Nat)
    (bookings : List Booking) : Bool :=
  bookings.any fun b =>
    decide (b.pitchId = pitchId) && decide (b.date = date) && b.isActive &&
      notExcluded excludeId b && overlaps s e b

/-- The domain errors raised by the two booking-creation handlers. -/
inductive CreateError
  | pitchNotFound
  | availabilityNotSet
  | dayUnavailable
  | outsideHours
  | slotConflict
  | pastDate
  | endNotAfterStart
  | durationTooShort
  | permissionDenied
  | promotionNotFound
  | promotionInvalid
deriving DecidableEq

/-- The spec's `InvalidInterval` failure class: end ≤ start or duration below 30
minutes. -/
def CreateError.isInvalidInterval : CreateError → Bool
  | .endNotAfterStart => true
  | .durationTooShort => true
  | _ => false

/-- Helper for `Booking.objects.create(**booking_data)` with `status='pending'`:
the record handed to the ORM before `Booking.save` runs on it. -/
def mkPendingBooking (id pitchId playerId : Nat) (date : Int) (s e : Nat)
    (price : ℚ) : Booking :=
  { id := id, pitchId := pitchId, playerId := playerId, date := date,
    startTime := s, endTime := e, status := BStatus.pending, totalPrice := price }

/-- Mirrors the routed legacy `BookingViewSet.create` (views.py:427-556) after request
parsing: pitch fetch, availability/day check, opening-hours check, the overlap
filter, `total_price = price_per_hour * duration`, `Booking.objects.create` (which
runs `Booking.save`), and a notification send wrapped in try/except so that its
failure is swallowed. Note: this handler performs no end-after-start and no
minimum-duration check. Success returns the created row and the table after the
insert; an error means nothing was persisted. -/
def legacyCreate (pitch : Option Pitch) (avail : Option Availability)
    (bookings : List Booking) (newId playerId : Nat) (date : Int) (s e : Nat)
    (emailFails : Bool) : Except CreateError (Booking × List Booking) :=
  match pitch with
  | none => .error .pitchNotFound
  | some p =>
    match avail with
    | none => .error .availabilityNotSet
    | some a =>
      if a.isAvailable then
        if s < a.openingTime ∨ e > a.closingTime then .error .outsideHours
        else if hasConflict p.id date s e none bookings then .error .slotConflict
        else
          let totalPrice := p.pricePerHour * durationHours s e
          let b := Booking.save p (mkPendingBooking newId p.id playerId date s e totalPrice)
          let _ := emailFails
          .ok (b, bookings ++ [b])
      else .error .dayUnavailable

/-- The persisted effects of a successful enhanced creation: the booking row as
written, the table after the insert, the `Payment.amount` recorded, and the
promotion row after its usage increment (when a promotion was applied). -/
structure EnhancedOutcome where
  booking : Booking
  bookings : List Booking
  paymentAmount : ℚ
  promotion : Option Promotion
deriving DecidableEq

/-- Mirrors the enhanced `BookingViewSet.create` (enhanced_views.py:726-895) after
request parsing. `promo = none` means no promotion code was supplied;
`promo = some none` a code was supplied but no such row exists; `promo = some (some p)`
the fetched row. The discounted price `round(total_price, 2)` is handed to
`Booking.objects.create`, whose `Booking.save` then recomputes
`price_per_hour * duration` over it; `Payment.amount` copies `booking.total_price`
after that save. The notification send is wrapped in try/except. -/
def enhancedCreate (ut : UserType) (pitch : Option Pitch) (today date : Int)
    (s e : Nat) (avail : Option Availability) (bookings : List Booking)
    (promo : Option (Option Promotion)) (now : Int) (newId playerId : Nat)
    (emailFails : Bool) : Except CreateError EnhancedOutcome :=
  if ¬ (ut = UserType.player ∨ ut = UserType.admin) then .error .permissionDenied
  else
    match pitch with
    | none => .error .pitchNotFound
    | some p =>
      if date < today then .error .pastDate
      else if e ≤ s then .error .endNotAfterStart
      else if durationHours s e < 1/2 then .error .durationTooShort
      else
        match avail with
        | none => .error .availabilityNotSet
        | some a =>
          if ¬ a.isAvailable then .error .dayUnavailable
          else if s < a.openingTime ∨ e > a.closingTime then .error .outsideHours
          else if hasConflict p.id date s e none bookings then .error .slotConflict
          else
            let basePrice := p.pricePerHour * durationHours s e
            match promo with
            | none =>
              let b := Booking.save p
                (mkPendingBooking newId p.id playerId date s e (round2 basePrice))
              let _ := emailFails
              .ok { booking := b, bookings := bookings ++ [b],
                    paymentAmount := b.totalPrice, promotion := none }
            | some none => .error .promotionNotFound
            | some (some prm) =>
              if prm.is_valid now then
                let discount := basePrice * (prm.discountPercentage : ℚ) / 100
                let b := Booking.save p
                  (mkPendingBooking newId p.id playerId date s e
                    (round2 (basePrice - discount)))
                let _ := emailFails
                .ok { booking := b, bookings := bookings ++ [b],
                      paymentAmount := b.totalPrice,
                      promotion := some { prm with currentUses := prm.currentUses + 1 } }
              else .error .promotionInvalid

/-- The domain errors of `PromotionViewSet.use`. -/
inductive UseError
  | invalidPromotion
  | bookingNotFound
  | notPending
deriving DecidableEq

/-- Mirrors `PromotionViewSet.use` (views.py:1367-1410): validity check, fetch of the
caller's booking, pending check; then the discount is subtracted from
`booking.total_price`, `booking.save()` runs (recomputing the price from the pitch
rate and discarding the subtraction), and `current_uses` is incremented and saved.
Success returns the booking and promotion rows as persisted. -/
def promotionUse (prm : Promotion) (now : Int) (booking : Option Booking)
    (pitch : Pitch) : Except UseError (Booking × Promotion) :=
  if prm.is_valid now then
    match booking with
    | none => .error .bookingNotFound
    | some b =>
      if b.status = BStatus.pending then
        let discountAmount := b.totalPrice * (prm.discountPercentage : ℚ) / 100
        let b1 := Booking.save pitch { b with totalPrice := b.totalPrice - discountAmount }
        let prm1 := { prm with currentUses := prm.currentUses + 1 }
        .ok (b1, prm1)
      else .error .notPending
  else .error .invalidPromotion

/-- The domain errors of `Booking.clean`. -/
inductive CleanError
  | pastDate
  | endNotAfterStart
  | durationTooShort
  | negativePrice
  | slotConflict
deriving DecidableEq

/-- The `InvalidInterval` failure class among `Booking.clean` errors. -/
def CleanError.isInvalidInterval : CleanError → Bool
  | .endNotAfterStart => true
  | .durationTooShort => true
  | _ => false

/-- Mirrors `Booking.clean` (models.py:295-358) against the bookings table:
`validate_future_date` is `date >= today`, `validate_time_range` is `start < end`,
then the 30-minute minimum, the non-negative price check, and — only when
`isNew` (that is, `self.pk is None`) — the conflict loop over same-pitch same-date
pending/confirmed bookings. -/
def Booking.clean (b : Booking) (today : Int) (isNew : Bool)
    (bookings : List Booking) : Except CleanError Unit :=
  if b.date < today then .error .pastDate
  else if ¬ b.startTime < b.endTime then .error .endNotAfterStart
  else if durationHours b.startTime b.endTime < 1/2 then .error .durationTooShort
  else if b.totalPrice < 0 then .error .negativePrice
  else if isNew && hasConflict b.pitchId b.date b.startTime b.endTime none bookings then
    .error .slotConflict
  else .ok ()

/-- Mirrors `EnhancedValidationMixin.validate_booking_conflicts`
(serializers.py:46-74): when any of pitch, date, start or end is absent from the
validated data the check silently returns; otherwise the conflict query runs with
the optional `exclude_pk`. On an update through `BookingSerializer` the `pitch`
field is declared read-only (serializers.py:554), so it is never present in the
validated data and the check degenerates to the missing-field early return. -/
def validate_booking_conflicts (pitchId : Option Nat) (date : Option Int)
    (s e : Option Nat) (excludePk : Option Nat) (bookings : List Booking) :
    Except Unit Unit :=
  match pitchId, date, s, e with
  | some p, some d, some s', some e' =>
    if hasConflict p d s' e' excludePk bookings then .error () else .ok ()
  | _, _, _, _ => .ok ()

/-- Mirrors `Booking.should_be_completed` (models.py:375-393). -/
def Booking.should_be_completed (b : Booking) (today : Int) (nowTime : Nat) : Bool :=
  if b.date < today then true
  else if b.date = today ∧ b.endTime ≤ nowTime then true
  else false

/-- Mirrors `Booking.update_status_if_needed` (models.py:395-401): the lazy check,
which saves `status='completed'` only for a pending booking whose slot has passed.
Returns the row as persisted and the function's boolean result. -/
def Booking.update_status_if_needed (b : Booking) (today : Int) (nowTime : Nat) :
    Booking × Bool :=
  if b.status = BStatus.pending ∧ b.should_be_completed today nowTime = true then
    ({ b with status := BStatus.completed }, true)
  else (b, false)

/-- Mirrors the batch sweep `Booking.update_expired_bookings` (models.py:403-428),
called on every read of the booking collection (views.py:396,
enhanced_views.py:712): rows with `status='pending'` and
`date < today or (date = today and end_time <= now)` are saved as completed. -/
def update_expired_bookings (today : Int) (nowTime : Nat)
    (bookings : List Booking) : List Booking :=
  bookings.map fun b =>
    if b.status = BStatus.pending ∧
        (b.date < today ∨ (b.date = today ∧ b.endTime ≤ nowTime)) then
      { b with status := BStatus.completed }
    else b

/-- Mirrors `User.calculate_reserved_hours` (models.py:117-132): the durations in
hours of this user's confirmed and completed bookings are summed and the total is
truncated with `int()`. -/
def calculate_reserved_hours (userId : Nat) (bookings : List Booking) : Int :=
  truncQ (((bookings.filter fun b =>
      decide (b.playerId = userId) &&
        decide (b.status = BStatus.confirmed ∨ b.status = BStatus.completed)).map
    fun b => durationHours b.startTime b.endTime).sum)

/-- The database state the reserved-hours signals act on: the bookings table and the
per-user cached `reserved_hours` column. -/
structure DB where
  bookings : List Booking
  reservedHours : Nat → Int

/-- Mirrors `User.update_reserved_hours` (models.py:134-137), as invoked by the
`post_save` and `post_delete` receivers on `Booking` (signals.py:5-15) with
`user = instance.player`. -/
def update_user_reserved_hours (userId : Nat) (db : DB) : DB :=
  { db with reservedHours := fun u =>
      if u = userId then calculate_reserved_hours userId db.bookings
      else db.reservedHours u }

/-- Creation of a booking row followed by the synchronous `post_save` signal. -/
def createBookingRow (b : Booking) (db : DB) : DB :=
  update_user_reserved_hours b.playerId { db with bookings := db.bookings ++ [b] }

/-- Update (save) of an existing booking row followed by the `post_save` signal. -/
def updateBookingRow (b : Booking) (db : DB) : DB :=
  update_user_reserved_hours b.playerId
    { db with bookings := db.bookings.map fun x => if x.id = b.id then b else x }

/-- Deletion of a booking row followed by the `post_delete` signal. -/
def deleteBookingRow (b : Booking) (db : DB) : DB :=
  update_user_reserved_hours b.playerId
    { db with bookings := db.bookings.filter fun x => decide (x.id ≠ b.id) }

/-- The errors of `BookingViewSet.confirm`; `emailSendFailed` is the unhandled
exception escaping from the unguarded `send_mail` call. -/
inductive ConfirmError
  | notPending
  | permissionDenied
  | emailSendFailed
deriving DecidableEq

/-- The state persisted by a confirm request: the booking row and the amount of the
payment row, when one was created. -/
structure ConfirmState where
  booking : Booking
  paymentAmount : Option ℚ
deriving DecidableEq

/-- Mirrors `BookingViewSet.confirm` (views.py:558-597). The status change is saved
and the payment row created before the notification; the `send_mail` call
(views.py:589-594) is NOT wrapped in try/except, so when the player has an email
address and the send raises, the request fails after those writes — and with no
transaction around the request, nothing is rolled back. The pair returned is
(persisted state, request result). -/
def confirmBooking (pitch : Pitch) (b : Booking) (ut : UserType)
    (userIsPitchOwner : Bool) (playerHasEmail : Bool) (emailFails : Bool) :
    ConfirmState × Except ConfirmError Booking :=
  if ¬ b.status = BStatus.pending then ({ booking := b, paymentAmount := none }, .error .notPending)
  else if ¬ (ut = UserType.owner ∨ ut = UserType.admin) ∨
      (ut = UserType.owner ∧ ¬ userIsPitchOwner) then
    ({ booking := b, paymentAmount := none }, .error .permissionDenied)
  else
    let b1 := Booking.save pitch { b with status := BStatus.confirmed }
    let st : ConfirmState := { booking := b1, paymentAmount := some b1.totalPrice }
    if playerHasEmail ∧ emailFails then (st, .error .emailSendFailed)
    else (st, .ok b1)

/-- The errors of `BookingViewSet.cancel`. -/
inductive CancelError
  | terminalStatus
  | permissionDenied
deriving DecidableEq

/-- Mirrors `BookingViewSet.cancel` (views.py:599-660): terminal statuses are
rejected, the requester must be the player, the pitch owner, or an admin; the
cancelled status is saved (marking any payment refunded), and the notification
send (views.py:638-656) is wrapped in try/except so its failure is swallowed. -/
def cancelBooking (pitch : Pitch) (b : Booking) (isPlayer isOwner : Bool)
    (ut : UserType) (emailFails : Bool) : Except CancelError Booking :=
  if b.status = BStatus.completed ∨ b.status = BStatus.cancelled then
    .error .terminalStatus
  else if ¬ (isPlayer ∨ isOwner) ∧ ¬ ut = UserType.admin then
    .error .permissionDenied
  else
    let b1 := Booking.save pitch { b with status := BStatus.cancelled }
    let _ := emailFails
    .ok b1

/-! Concrete fixtures for the scenario theorems. -/

/-- A pitch at rate 50 per hour. -/
def pitch50 : Pitch := { id := 1, pricePerHour := 50, ownerId := 9 }

/-- An available 08:00-22:00 availability entry. -/
def availAllDay : Availability :=
  { openingTime := 480, closingTime := 1320, isAvailable := true }

/-- A valid 20 percent promotion with usage headroom. -/
def promo20 : Promotion :=
  { discountPercentage := 20, maxUses := some 100, currentUses := 0,
    validFrom := 0, validUntil := 1000 }

/-- A promotion whose window ends exactly at time 100. -/
def promoEdge : Promotion :=
  { discountPercentage := 10, maxUses := none, currentUses := 0,
    validFrom := 0, validUntil := 100 }

/-- An exhausted promotion: current_uses equals max_uses. -/
def promoFull : Promotion :=
  { discountPercentage := 50, maxUses := some 3, currentUses := 3,
    validFrom := 0, validUntil := 100 }

/-- A pending booking for pitch 1 on day 1, 10:00-11:00. -/
def bkPend : Booking :=
  { id := 1, pitchId := 1, playerId := 3, date := 1, startTime := 600,
    endTime := 660, status := BStatus.pending, totalPrice := 50 }

/-- An existing booking moved (by an update) to 10:30-11:30, overlapping `bkPend`. -/
def bkMoved : Booking :=
  { id := 2, pitchId := 1, playerId := 5, date := 1, startTime := 630,
    endTime := 690, status := BStatus.pending, totalPrice := 50 }

/-- A cancelled booking occupying 10:00-11:00 on pitch 1, day 1. -/
def bkCancelled : Booking :=
  { id := 3, pitchId := 1, playerId := 3, date := 1, startTime := 600,
    endTime := 660, status := BStatus.cancelled, totalPrice := 50 }

/-- A pending booking dated yesterday relative to today = 0. -/
def bkYesterday : Booking :=
  { id := 4, pitchId := 1, playerId := 3, date := -1, startTime := 600,
    endTime := 660, status := BStatus.pending, totalPrice := 50 }

/-- Claim C9: every save of a Booking whose pitch, start time and end time are set
overwrites total_price with the pitch's current price_per_hour times the interval
duration, discarding whatever value was stored or passed in; in particular the
discounted price written by the promotion-use endpoint is discarded by the save that
endpoint itself performs. -/
theorem save_overwrites_total_price :
    ∀ (p : Pitch) (b : Booking) (q : ℚ),
      (Booking.save p b).totalPrice =
          p.pricePerHour * durationHours b.startTime b.endTime ∧
        Booking.save p { b with totalPrice := q } = Booking.save p b ∧
        (∀ (prm : Promotion) (now : Int),
          prm.is_valid now = true → b.status = BStatus.pending →
            (promotionUse prm now (some b) p).map (fun r => r.1.totalPrice) =
              .ok (p.pricePerHour * durationHours b.startTime b.endTime)) := by
  intro p b q
  refine ⟨rfl, rfl, ?_⟩
  intro prm now hval hst
  simp [promotionUse, hval, hst, Booking.save, Except.map]

/-- Witness for the save-overwrite theorem: a concrete promotion use whose
discounted write is discarded in favour of rate times duration. -/
theorem save_overwrites_total_price_witness :
    (promotionUse promo20 10 (some bkPend) pitch50).map (fun r => r.1.totalPrice) =
      .ok (pitch50.pricePerHour * durationHours bkPend.startTime bkPend.endTime) :=
  (save_overwrites_total_price pitch50 bkPend 0).2.2 promo20 10 (by decide) (by decide)

/-- Claim C10: the model-level conflict check runs only for a new row (`pk is None`),
so `Booking.clean` on an update is independent of the existing-bookings table; the
serializer-level conflict validator degenerates to its missing-field early return on
updates because `pitch` is read-only and absent from the validated data; hence an
update can move a booking onto an interval that overlaps another active booking of
the same pitch and date, as the concrete scenario shows. -/
theorem update_skips_conflict_check :
    (∀ (b : Booking) (today : Int) (bookings bookings' : List Booking),
        Booking.clean b today false bookings = Booking.clean b today false bookings') ∧
      (∀ (d : Option Int) (s e excludePk : Option Nat) (bookings : List Booking),
        validate_booking_conflicts none d s e excludePk bookings = .ok ()) ∧
      Booking.clean bkMoved 0 false [bkPend] = .ok () ∧
      hasConflict bkMoved.pitchId bkMoved.date bkMoved.startTime bkMoved.endTime
        none [bkPend] = true := by
  refine ⟨fun b today bookings bookings' => rfl,
    fun d s e excludePk bookings => rfl,
    by norm_num [Booking.clean, bkMoved, bkPend, durationHours], by decide⟩

/-- Claim C4 counterexample: at the instant `valid_until` (with the usage cap not
reached) the code accepts the promotion while the spec's half-open window
[valid_from, valid_until) rejects it. -/
theorem is_valid_closed_at_valid_until :
    Promotion.is_valid promoEdge 100 = true ∧
      Promotion.specValid promoEdge 100 = false := by
  decide

/-- Claim C4 (amended): a promotion is accepted exactly when the current time lies
in the CLOSED window [valid_from, valid_until] — so now = valid_until is still
accepted — and max_uses is unset or current_uses < max_uses; in particular a
promotion with current_uses = max_uses is rejected regardless of its discount
percentage. -/
theorem is_valid_characterization :
    (∀ (p : Promotion) (now : Int),
        Promotion.is_valid p now = true ↔
          p.validFrom ≤ now ∧ now ≤ p.validUntil ∧
            (p.maxUses = none ∨ ∃ m, p.maxUses = some m ∧ p.currentUses < m)) ∧
      (∀ (p : Promotion) (now m : Int),
        p.maxUses = some m → p.currentUses = m →
          Promotion.is_valid p now = false) := by
  constructor
  · intro p now
    rcases p with ⟨d, mu, cu, vf, vu⟩
    cases mu with
    | none =>
      simp only [Promotion.is_valid]
      split_ifs with h <;> simp_all
    | some m =>
      simp only [Promotion.is_valid]
      split_ifs with h <;> simp_all
  · intro p now m hmu hcu
    simp only [Promotion.is_valid, hmu, hcu]
    split_ifs with h <;> simp

/-- Witness for the amended promotion-validity theorem: the exhausted fixture is
rejected. -/
theorem is_valid_characterization_witness :
    Promotion.is_valid promoFull 50 = false :=
  is_valid_characterization.2 promoFull 50 3 rfl rfl

/-- A pending booking occupying 11:00-12:00, touching `bkPend` end to start. -/
def bkTouch : Booking :=
  { id := 5, pitchId := 1, playerId := 3, date := 1, startTime := 660,
    endTime := 720, status := BStatus.pending, totalPrice := 50 }

/-- Claim C2: the conflict query flags an active (pending or confirmed) booking of
the same pitch and date exactly when start < other.end and end > other.start
(half-open semantics); an interval ending where another starts is never flagged,
[10:00,11:00) against [10:30,11:30) is always flagged, and cancelled or completed
bookings are never considered. -/
theorem conflict_half_open_semantics :
    (∀ b : Booking, b.isActive = true ↔
        b.status = BStatus.pending ∨ b.status = BStatus.confirmed) ∧
      (∀ (pid : Nat) (d : Int) (s e : Nat) (bookings : List Booking),
        hasConflict pid d s e none bookings = true ↔
          ∃ b ∈ bookings, b.pitchId = pid ∧ b.date = d ∧ b.isActive = true ∧
            s < b.endTime ∧ e > b.startTime) ∧
      (∀ b : Booking, b.startTime = 660 → b.endTime = 720 →
        overlaps 600 660 b = false) ∧
      (∀ b : Booking, b.startTime = 630 → b.endTime = 690 →
        overlaps 600 660 b = true) ∧
      (∀ (b : Booking) (pid : Nat) (d : Int) (s e : Nat) (bookings : List Booking),
        b.status = BStatus.cancelled ∨ b.status = BStatus.completed →
          hasConflict pid d s e none (b :: bookings) =
            hasConflict pid d s e none bookings) := by
  refine ⟨?_, ?_, ?_, ?_, ?_⟩
  · intro b
    simp only [Booking.isActive, decide_eq_true_eq]
    exact or_comm
  · intro pid d s e bookings
    simp [hasConflict, overlaps, notExcluded, List.any_eq_true, Bool.and_eq_true,
      decide_eq_true_eq, and_assoc]
  · intro b h1 h2
    simp [overlaps, h1, h2]
  · intro b h1 h2
    simp [overlaps, h1, h2]
  · intro b pid d s e bookings hb
    rcases hb with h | h <;> simp [hasConflict, Booking.isActive, h]

/-- Witness for the conflict-semantics theorem at concrete bookings: a touching
interval is not flagged, a proper overlap is, and a cancelled booking does not
change the query's answer. -/
theorem conflict_half_open_semantics_witness :
    overlaps 600 660 bkTouch = false ∧ overlaps 600 660 bkMoved = true ∧
      hasConflict 1 1 600 660 none [bkCancelled] = hasConflict 1 1 600 660 none [] :=
  ⟨conflict_half_open_semantics.2.2.1 bkTouch rfl rfl,
    conflict_half_open_semantics.2.2.2.1 bkMoved rfl rfl,
    conflict_half_open_semantics.2.2.2.2 bkCancelled 1 1 600 660 [] (Or.inl rfl)⟩

/-- The auto-completion condition of `Booking.should_be_completed`, spelled out. -/
theorem should_be_completed_iff (b : Booking) (today : Int) (nowTime : Nat) :
    b.should_be_completed today nowTime = true ↔
      b.date < today ∨ (b.date = today ∧ b.endTime ≤ nowTime) := by
  simp only [Booking.should_be_completed]
  split_ifs with h1 h2 <;> simp_all

/-- Claim C5: the lifecycle sweep and the lazy on-read check both transition a
booking from pending to completed exactly when its date is strictly before today,
or its date is today and its end time is at or before the current time; only a
pending booking is eligible; a pending booking dated yesterday becomes completed
after the sweep. -/
theorem lifecycle_auto_completion :
    (∀ (b : Booking) (today : Int) (nowTime : Nat),
        b.should_be_completed today nowTime = true ↔
          b.date < today ∨ (b.date = today ∧ b.endTime ≤ nowTime)) ∧
      (∀ (today : Int) (nowTime : Nat) (bookings : List Booking),
        update_expired_bookings today nowTime bookings =
          bookings.map fun b => (b.update_status_if_needed today nowTime).1) ∧
      (∀ (b : Booking) (today : Int) (nowTime : Nat),
        (b.update_status_if_needed today nowTime).2 = true ↔
          b.status = BStatus.pending ∧
            (b.date < today ∨ (b.date = today ∧ b.endTime ≤ nowTime))) ∧
      update_expired_bookings 0 600 [bkYesterday] =
        [{ bkYesterday with status := BStatus.completed }] := by
  refine ⟨should_be_completed_iff, ?_, ?_, by decide⟩
  · intro today nowTime bookings
    have hpt : ∀ b : Booking,
        (if b.status = BStatus.pending ∧
            (b.date < today ∨ (b.date = today ∧ b.endTime ≤ nowTime)) then
          { b with status := BStatus.completed } else b) =
          (b.update_status_if_needed today nowTime).1 := by
      intro b
      have hcond := should_be_completed_iff b today nowTime
      simp only [Booking.update_status_if_needed]
      split_ifs with h1 h2 <;> first | rfl | (exfalso; tauto)
    induction bookings with
    | nil => rfl
    | cons hd tl ih =>
      simp only [update_expired_bookings, List.map_cons] at ih ⊢
      rw [hpt hd, ih]
  · intro b today nowTime
    have hcond := should_be_completed_iff b today nowTime
    simp only [Booking.update_status_if_needed]
    split_ifs with h
    · exact iff_of_true rfl ⟨h.1, hcond.mp h.2⟩
    · exact iff_of_false (by simp) fun hx => h ⟨hx.1, hcond.mpr hx.2⟩

/-- The quantity `User.calculate_reserved_hours` truncates: the sum of the durations
in hours of the given user's confirmed and completed bookings. -/
def reservedSum (userId : Nat) (bookings : List Booking) : ℚ :=
  ((bookings.filter fun b =>
      decide (b.playerId = userId) &&
        decide (b.status = BStatus.confirmed ∨ b.status = BStatus.completed)).map
    fun b => durationHours b.startTime b.endTime).sum

/-- Claim C6: after every create, update or delete of a booking, the cache for that
booking's user is synchronously recomputed in full and equals the sum over the
user's confirmed and completed bookings of (end - start) in hours, truncated
(toward zero, not rounded) to an integer; `truncQ (3/2) = 1` separates truncation
from rounding. -/
theorem reserved_hours_cache :
    (∀ (db : DB) (b : Booking),
        (createBookingRow b db).reservedHours b.playerId =
            truncQ (reservedSum b.playerId (createBookingRow b db).bookings) ∧
          (updateBookingRow b db).reservedHours b.playerId =
            truncQ (reservedSum b.playerId (updateBookingRow b db).bookings) ∧
          (deleteBookingRow b db).reservedHours b.playerId =
            truncQ (reservedSum b.playerId (deleteBookingRow b db).bookings)) ∧
      truncQ (3/2) = 1 := by
  constructor
  · intro db b
    refine ⟨?_, ?_, ?_⟩ <;>
      simp [createBookingRow, updateBookingRow, deleteBookingRow,
        update_user_reserved_hours, calculate_reserved_hours, reservedSum]
  · norm_num [truncQ]

/-- Claim C1 (code bug): a 2-hour booking at rate 50 with a valid 20 percent
promotion is persisted with total_price 100.00, not the 80.00 the spec requires —
`Booking.save`, run by `Booking.objects.create`, recomputes rate times duration over
the discounted, rounded price the enhanced create handler passes in; the payment row
copies the same undiscounted amount. The spec's formula does give 80. -/
theorem discounted_price_not_persisted :
    (enhancedCreate UserType.player (some pitch50) 0 1 600 720 (some availAllDay)
          [] (some (some promo20)) 10 7 3 false).map
        (fun o => (o.booking.totalPrice, o.paymentAmount)) = .ok (100, 100) ∧
      round2 (50 * durationHours 600 720 * (1 - 20 / 100)) = 80 := by
  constructor
  · norm_num [enhancedCreate, hasConflict, mkPendingBooking, Booking.save,
      durationHours, round2, roundHalfEven, Promotion.is_valid, promo20, pitch50,
      availAllDay, Except.map]
  · norm_num [round2, roundHalfEven, durationHours]

/-- Claim C3 counterexample: the routed legacy create endpoint accepts a request
with end time 10:30 strictly before start time 11:00 (inside availability hours,
empty table) and persists the booking instead of failing with InvalidInterval. -/
theorem legacy_create_accepts_inverted_interval :
    (legacyCreate (some pitch50) (some availAllDay) [] 7 3 1 660 630 false).map
      (fun r => (r.1.startTime, r.1.endTime, r.2.length)) = .ok (660, 630, 1) := by
  norm_num [legacyCreate, hasConflict, mkPendingBooking, Booking.save,
    durationHours, pitch50, availAllDay, Except.map]

/-- Claim C3 (amended): the enhanced create handler and the model-level
`Booking.clean` validation reject an interval with end at or before start, or
duration under 30 minutes, with an InvalidInterval-class error and nothing
persisted; the legacy create endpoint performs no such check and can persist such a
booking. -/
theorem invalid_interval_rejected_in_validated_paths :
    (∀ (ut : UserType) (p : Pitch) (today date : Int) (s e : Nat)
        (avail : Option Availability) (bookings : List Booking)
        (promo : Option (Option Promotion)) (now : Int) (newId playerId : Nat)
        (ef : Bool),
        (ut = UserType.player ∨ ut = UserType.admin) → today ≤ date →
          (e ≤ s ∨ durationHours s e < 1/2) →
          ∃ err, enhancedCreate ut (some p) today date s e avail bookings promo now
              newId playerId ef = .error err ∧ err.isInvalidInterval = true) ∧
      (∀ (b : Booking) (today : Int) (isNew : Bool) (bookings : List Booking),
        today ≤ b.date →
          (b.endTime ≤ b.startTime ∨ durationHours b.startTime b.endTime < 1/2) →
          ∃ cerr, Booking.clean b today isNew bookings = .error cerr ∧
            cerr.isInvalidInterval = true) := by
  constructor
  · intro ut p today date s e avail bookings promo now newId playerId ef hut htd hiv
    have hnd : ¬ date < today := not_lt.mpr htd
    by_cases he : e ≤ s
    · exact ⟨CreateError.endNotAfterStart,
        by simp [enhancedCreate, hut, hnd, he], rfl⟩
    · have hdur : durationHours s e < 2⁻¹ := by
        rw [← one_div]
        rcases hiv with h | h
        · exact absurd h he
        · exact h
      exact ⟨CreateError.durationTooShort,
        by simp [enhancedCreate, hut, hnd, he, hdur], rfl⟩
  · intro b today isNew bookings htd hiv
    have hnd : ¬ b.date < today := not_lt.mpr htd
    by_cases he : b.endTime ≤ b.startTime
    · have hns : ¬ b.startTime < b.endTime := not_lt.mpr he
      exact ⟨CleanError.endNotAfterStart, by simp [Booking.clean, hnd, hns], rfl⟩
    · have hlt : b.startTime < b.endTime := not_le.mp he
      have hdur : durationHours b.startTime b.endTime < 2⁻¹ := by
        rw [← one_div]
        rcases hiv with h | h
        · exact absurd h he
        · exact h
      exact ⟨CleanError.durationTooShort,
        by simp [Booking.clean, hnd, hlt, hdur], rfl⟩

/-- Witness for the amended interval-validation theorem: a 15-minute request is
rejected by the enhanced handler with an InvalidInterval-class error. -/
theorem invalid_interval_rejected_witness :
    ∃ err, enhancedCreate UserType.player (some pitch50) 0 1 600 615
        (some availAllDay) [] none 10 7 3 false = .error err ∧
      err.isInvalidInterval = true :=
  invalid_interval_rejected_in_validated_paths.1 UserType.player pitch50 0 1 600 615
    (some availAllDay) [] none 10 7 3 false (Or.inl rfl) (by omega)
    (Or.inr (by norm_num [durationHours]))

/-- Claim C7 counterexample: the promotion-use endpoint applied twice to the same
pending booking succeeds twice and increments current_uses from 0 to 2 — two
increments for the same booking. -/
theorem promotion_double_use_counterexample :
    ((promotionUse promo20 10 (some bkPend) pitch50).bind fun r =>
        promotionUse r.2 10 (some r.1) pitch50).map (fun r => r.2.currentUses) =
      .ok 2 := by
  norm_num [promotionUse, promo20, bkPend, pitch50, Promotion.is_valid,
    Booking.save, durationHours, Except.bind, Except.map]

/-- Claim C7 (amended): the usage counter is incremented exactly once per
promotion-referencing success — once per successfully created booking in the
enhanced create handler and once per successful use call — and never on a failed
attempt; but nothing ties an increment to a booking, so repeated use calls on the
same booking each increment the counter again. -/
theorem promotion_increment_per_success :
    (∀ (ut : UserType) (p : Pitch) (today date : Int) (s e : Nat)
        (avail : Option Availability) (bookings : List Booking) (prm : Promotion)
        (now : Int) (newId playerId : Nat) (ef : Bool) (o : EnhancedOutcome),
        enhancedCreate ut (some p) today date s e avail bookings (some (some prm))
            now newId playerId ef = .ok o →
          o.promotion = some { prm with currentUses := prm.currentUses + 1 }) ∧
      (∀ (ut : UserType) (pitch : Option Pitch) (today date : Int) (s e : Nat)
        (avail : Option Availability) (bookings : List Booking) (now : Int)
        (newId playerId : Nat) (ef : Bool) (o : EnhancedOutcome),
        enhancedCreate ut pitch today date s e avail bookings none now newId
            playerId ef = .ok o → o.promotion = none) ∧
      (∀ (prm : Promotion) (now : Int) (ob : Option Booking) (pitch : Pitch)
        (b1 : Booking) (prm1 : Promotion),
        promotionUse prm now ob pitch = .ok (b1, prm1) →
          prm1.currentUses = prm.currentUses + 1) ∧
      (∀ (prm : Promotion) (now : Int) (ob : Option Booking) (pitch : Pitch),
        prm.is_valid now = false →
          promotionUse prm now ob pitch = .error .invalidPromotion) := by
  refine ⟨?_, ?_, ?_, ?_⟩
  · intro ut p today date s e avail bookings prm now newId playerId ef o h
    rcases avail with _ | a <;> simp only [enhancedCreate] at h <;>
      split_ifs at h <;> cases h <;> rfl
  · intro ut pitch today date s e avail bookings now newId playerId ef o h
    rcases pitch with _ | p <;> rcases avail with _ | a <;>
      simp only [enhancedCreate] at h <;> split_ifs at h <;> cases h <;> rfl
  · intro prm now ob pitch b1 prm1 h
    rcases ob with _ | b <;> simp only [promotionUse] at h <;>
      split_ifs at h <;> cases h <;> rfl
  · intro prm now ob pitch h
    simp [promotionUse, h]

/-- Witness for the per-success increment theorem at a concrete successful use. -/
theorem promotion_increment_per_success_witness :
    ({ promo20 with currentUses := 1 } : Promotion).currentUses =
      promo20.currentUses + 1 :=
  promotion_increment_per_success.2.2.1 promo20 10 (some bkPend) pitch50 bkPend
    { promo20 with currentUses := 1 }
    (by norm_num [promotionUse, promo20, bkPend, pitch50, Promotion.is_valid,
      Booking.save, durationHours])

/-- Claim C8 counterexample: for a confirmable booking whose player has an email
address, the confirm request's result differs between a failing and a succeeding
notification send — the failing send makes the operation fail — even though the
persisted state is identical (and already confirmed) in both cases. -/
theorem confirm_email_failure_counterexample :
    (confirmBooking pitch50 bkPend UserType.owner true true true).2 =
        .error ConfirmError.emailSendFailed ∧
      (confirmBooking pitch50 bkPend UserType.owner true true false).2 =
        .ok { bkPend with status := BStatus.confirmed } ∧
      (confirmBooking pitch50 bkPend UserType.owner true true true).1 =
        (confirmBooking pitch50 bkPend UserType.owner true true false).1 ∧
      (confirmBooking pitch50 bkPend UserType.owner true true true).1.booking.status =
        BStatus.confirmed := by
  norm_num [confirmBooking, Booking.save, durationHours, bkPend, pitch50]

/-- Claim C8 (amended): booking creation (both handlers) and cancellation wrap the
notification send in try/except, so neither their result nor their persisted state
depends on the email outcome; confirmation saves its writes first but does not
guard the send, so an email failure leaves the booking confirmed (no rollback) yet
makes the confirm operation itself fail. -/
theorem notification_failure_effects :
    (∀ (pitch : Option Pitch) (avail : Option Availability)
        (bookings : List Booking) (newId playerId : Nat) (date : Int) (s e : Nat)
        (ef ef' : Bool),
        legacyCreate pitch avail bookings newId playerId date s e ef =
          legacyCreate pitch avail bookings newId playerId date s e ef') ∧
      (∀ (ut : UserType) (pitch : Option Pitch) (today date : Int) (s e : Nat)
        (avail : Option Availability) (bookings : List Booking)
        (promo : Option (Option Promotion)) (now : Int) (newId playerId : Nat)
        (ef ef' : Bool),
        enhancedCreate ut pitch today date s e avail bookings promo now newId
            playerId ef =
          enhancedCreate ut pitch today date s e avail bookings promo now newId
            playerId ef') ∧
      (∀ (pitch : Pitch) (b : Booking) (isPlayer isOwner : Bool) (ut : UserType)
        (ef ef' : Bool),
        cancelBooking pitch b isPlayer isOwner ut ef =
          cancelBooking pitch b isPlayer isOwner ut ef') ∧
      (∀ (pitch : Pitch) (b : Booking) (ut : UserType)
        (isOwner hasEmail ef ef' : Bool),
        (confirmBooking pitch b ut isOwner hasEmail ef).1 =
          (confirmBooking pitch b ut isOwner hasEmail ef').1) ∧
      (∀ (pitch : Pitch) (b : Booking),
        b.status = BStatus.pending →
          (confirmBooking pitch b UserType.admin false true true).1.booking.status =
              BStatus.confirmed ∧
            (confirmBooking pitch b UserType.admin false true true).2 =
              .error ConfirmError.emailSendFailed) := by
  refine ⟨fun _ _ _ _ _ _ _ _ _ _ => rfl, fun _ _ _ _ _ _ _ _ _ _ _ _ _ _ => rfl,
    fun _ _ _ _ _ _ _ => rfl, ?_, ?_⟩
  · intro pitch b ut isOwner hasEmail ef ef'
    simp only [confirmBooking]
    split_ifs <;> rfl
  · intro pitch b hb
    constructor <;> simp [confirmBooking, hb, Booking.save]

/-- Witness for the notification-effects theorem at a concrete pending booking. -/
theorem notification_failure_effects_witness :
    (confirmBooking pitch50 bkPend UserType.admin false true true).1.booking.status =
        BStatus.confirmed ∧
      (confirmBooking pitch50 bkPend UserType.admin false true true).2 =
        .error ConfirmError.emailSendFailed :=
  notification_failure_effects.2.2.2.2 pitch50 bkPend rfl

end KickZone
